import Mathlib

/-!
Verification of the nl-wallet disclosure verification engine.

This file shallowly embeds the relying-party-side disclosure code of the
repository (crates `nl_wallet_mdoc` and `openid4vc`) and proves the frozen
claims about it.

Conventions of the embedding:
* machine integers become `Nat`/`Int`; byte strings become `List Nat`;
* `IndexMap` becomes an association list with insertion-order preserving
  `indexMapGet`/`indexMapInsert` operations;
* fallible Rust functions returning `Result` become Lean functions
  returning `Except`;
* external cryptographic primitives whose implementations live outside the
  translated crates (SHA-256, HMAC-SHA256 from `ring`, CBOR serialization
  from `serde_cbor`, COSE/X.509 verification) are passed in as explicit
  function parameters, bundled in small "crypto environment" structures.
  The control flow around them is translated from the source verbatim.
-/

deriving instance DecidableEq for Except

namespace NlWallet

/-! ## Basic aliases (crate `nl_wallet_mdoc`, module `iso`) -/

abbrev NameSpace := String
abbrev DocType := String
abbrev DigestID := Nat
abbrev SessionToken := String
abbrev Bytes := List Nat
abbrev Digest := Bytes

/-- CBOR attribute values (`serde_cbor::Value`); the verifier treats them
opaquely, so a small representative inductive suffices. -/
inductive DataElementValue where
  | text (s : String)
  | int (i : Int)
  | boolean (b : Bool)
  deriving DecidableEq, Repr

/-- Insertion-ordered map lookup, mirroring `IndexMap::get`. -/
def indexMapGet {α β : Type} [DecidableEq α] : List (α × β) → α → Option β
  | [], _ => none
  | (k, v) :: rest, key => if k = key then some v else indexMapGet rest key

/-- Insertion-ordered map insert, mirroring `IndexMap::insert`: an existing
key keeps its position and gets the new value, a new key is appended. -/
def indexMapInsert {α β : Type} [DecidableEq α] : List (α × β) → α → β → List (α × β)
  | [], k, v => [(k, v)]
  | (k0, v0) :: rest, k, v =>
    if k0 = k then (k0, v) :: rest else (k0, v0) :: indexMapInsert rest k v

namespace Mdoc

/-- One disclosed attribute as signed by the issuer (`IssuerSignedItem`,
the payload of an `IssuerSignedItemBytes`). -/
structure IssuerSignedItem where
  digest_id : DigestID
  random : Bytes
  element_identifier : String
  element_value : DataElementValue
  deriving DecidableEq, Repr

/-- An attribute name and value (`Entry` in `iso/unsigned.rs`). -/
structure Entry where
  name : String
  value : DataElementValue
  deriving DecidableEq, Repr

abbrev Attributes := List IssuerSignedItem
abbrev IssuerNameSpaces := List (NameSpace × Attributes)
abbrev ValueDigests := List (NameSpace × List (DigestID × Digest))

/-- Validity window of an MSO, with the date strings already parsed to
timestamps (integer seconds). -/
structure ValidityInfo where
  signed : Int
  valid_from : Int
  valid_until : Int
  deriving DecidableEq, Repr

/-- The Mobile Security Object, restricted to the fields the verifier
reads: document type, per-namespace digest map and validity window. -/
structure MobileSecurityObject where
  doc_type : DocType
  value_digests : ValueDigests
  validity_info : ValidityInfo
  deriving DecidableEq, Repr

/-- Opaque handle for the COSE_Sign1 structure over the MSO; its
cryptographic verification is external to the translated code. -/
abbrev IssuerAuth := Nat

/-- `IssuerSigned`: optional disclosed attributes plus the issuer-signed MSO. -/
structure IssuerSigned where
  name_spaces : Option IssuerNameSpaces
  issuer_auth : IssuerAuth
  deriving DecidableEq, Repr

/-- A per-document error map inside a `DeviceResponse`. -/
abbrev DocumentError := List (DocType × Int)

inductive ValidityError where
  | ParsingFailed (msg : String)
  | NotYetValid (t : Int)
  | Expired (t : Int)
  deriving DecidableEq, Repr

/-- `VerificationError` of `mdoc/src/verifier.rs` (the variants exercised
by the verification paths under study). -/
inductive VerificationError where
  | DeviceResponseErrors (errors : List DocumentError)
  | UnexpectedStatus (status : Nat)
  | NoDocuments
  | WrongDocType (document : DocType) (mso : DocType)
  | MissingNamespace (ns : NameSpace)
  | MissingDigestID (id : DigestID)
  | AttributeVerificationFailed
  | EphemeralKeyMissing
  | Validity (e : ValidityError)
  deriving DecidableEq, Repr

/-- The crate-wide `Error`: verification errors plus the other error
categories (COSE, serialization) that the missing modules can produce. -/
inductive Error where
  | verification (e : VerificationError)
  | cose (msg : String)
  | serialization (msg : String)
  deriving DecidableEq, Repr

inductive ValidityRequirement where
  | AllowNotYetValid
  | Valid
  deriving DecidableEq, Repr

/-- `ValidityInfo::verify_is_valid_at`, with dates pre-parsed (the chrono
parsing steps of the source cannot fail on already-parsed integers). -/
def ValidityInfo.verify_is_valid_at (self : ValidityInfo) (time : Int)
    (validity : ValidityRequirement) : Except ValidityError Unit :=
  if validity = ValidityRequirement.Valid ∧ time < self.valid_from then
    .error (.NotYetValid self.valid_from)
  else if time > self.valid_until then
    -- the source reports `valid_from` in the `Expired` variant (sic)
    .error (.Expired self.valid_from)
  else
    .ok ()

/-- External cryptographic operations used by `IssuerSigned::verify`:
COSE verification of the issuer signature against the trust anchors
(`verify_against_trust_anchors`), common-name extraction from the signing
certificate, and the attribute digest function `cbor_digest`. -/
structure MdocCrypto where
  authVerify : IssuerAuth → Except Error MobileSecurityObject
  signingCertCommonName : IssuerAuth → Except Error (List String)
  cbor_digest : IssuerSignedItem → Except Error Digest

/-- `MobileSecurityObject::verify_attr_digest`: look up the stored digest at
the attribute's declared `digest_id` and compare with the recomputed digest. -/
def MobileSecurityObject.verify_attr_digest (self : MobileSecurityObject)
    (crypto : MdocCrypto) (ns : NameSpace) (item : IssuerSignedItem) :
    Except Error Unit :=
  match indexMapGet self.value_digests ns with
  | none => .error (.verification (.MissingNamespace ns))
  | some digests =>
    match indexMapGet digests item.digest_id with
    | none => .error (.verification (.MissingDigestID item.digest_id))
    | some digest =>
      match crypto.cbor_digest item with
      | .error e => .error e
      | .ok d =>
        if digest ≠ d then .error (.verification .AttributeVerificationFailed)
        else .ok ()

/-- `MobileSecurityObject::verify_attrs_in_namespace`: left-to-right,
fail-fast verification of every attribute of one namespace (the semantics
of `iter().map(..).collect::<Result<_>>()`). -/
def MobileSecurityObject.verify_attrs_in_namespace (self : MobileSecurityObject)
    (crypto : MdocCrypto) (ns : NameSpace) : Attributes → Except Error (List Entry)
  | [] => .ok []
  | item :: rest =>
    match self.verify_attr_digest crypto ns item with
    | .error e => .error e
    | .ok _ =>
      match self.verify_attrs_in_namespace crypto ns rest with
      | .error e => .error e
      | .ok entries =>
        .ok ({ name := item.element_identifier, value := item.element_value } :: entries)

/-- The namespace loop of `IssuerSigned::verify`: verify each namespace in
order and collect the entries into an `IndexMap` (fail-fast). -/
def MobileSecurityObject.verify_namespaces (self : MobileSecurityObject)
    (crypto : MdocCrypto) (acc : List (NameSpace × List Entry)) :
    IssuerNameSpaces → Except Error (List (NameSpace × List Entry))
  | [] => .ok acc
  | (ns, items) :: rest =>
    match self.verify_attrs_in_namespace crypto ns items with
    | .error e => .error e
    | .ok entries => self.verify_namespaces crypto (indexMapInsert acc ns entries) rest

/-- Disclosed attributes of one document (`DocumentDisclosedAttributes`). -/
structure DocumentDisclosedAttributes where
  attributes : List (NameSpace × List Entry)
  issuer : List String
  validity_info : ValidityInfo
  deriving DecidableEq, Repr

/-- `IssuerSigned::verify`: verify the issuer signature over the MSO, the
validity window, every disclosed attribute digest, and extract the issuer
common names. -/
def IssuerSigned.verify (self : IssuerSigned) (crypto : MdocCrypto)
    (validity : ValidityRequirement) (time : Int) :
    Except Error (DocumentDisclosedAttributes × MobileSecurityObject) :=
  match crypto.authVerify self.issuer_auth with
  | .error e => .error e
  | .ok mso =>
    match mso.validity_info.verify_is_valid_at time validity with
    | .error e => .error (.verification (.Validity e))
    | .ok _ =>
      match (match self.name_spaces with
             | some nss => mso.verify_namespaces crypto [] nss
             | none => .ok []) with
      | .error e => .error e
      | .ok attrs =>
        match crypto.signingCertCommonName self.issuer_auth with
        | .error e => .error e
        | .ok issuer =>
          .ok ({ attributes := attrs, issuer := issuer,
                 validity_info := mso.validity_info }, mso)

/-- A disclosed document; `device_signed` is kept opaque (its verification
is the externally-parameterized per-document step). -/
structure Document where
  doc_type : DocType
  issuer_signed : IssuerSigned
  device_signed : Bytes
  deriving DecidableEq, Repr

/-- A `DeviceResponse` as received from the holder. -/
structure DeviceResponse where
  version : String
  documents : Option (List Document)
  document_errors : Option (List DocumentError)
  status : Nat
  deriving DecidableEq, Repr

/-- The per-document loop of `DeviceResponse::verify`, with the
document-level verification step (`Document::verify`, which involves
external signature/MAC checks) passed in as `verifyDoc`. -/
def DeviceResponse.verifyDocsLoop
    (verifyDoc : Document → Except Error (DocType × DocumentDisclosedAttributes))
    (acc : List (DocType × DocumentDisclosedAttributes)) :
    List Document → Except Error (List (DocType × DocumentDisclosedAttributes))
  | [] => .ok acc
  | doc :: rest =>
    match verifyDoc doc with
    | .error e => .error e
    | .ok (dt, da) => DeviceResponse.verifyDocsLoop verifyDoc (indexMapInsert acc dt da) rest

/-- `DeviceResponse::verify`: the three whole-response checks, then the
per-document loop. -/
def DeviceResponse.verify (self : DeviceResponse)
    (verifyDoc : Document → Except Error (DocType × DocumentDisclosedAttributes)) :
    Except Error (List (DocType × DocumentDisclosedAttributes)) :=
  match self.document_errors with
  | some errors => .error (.verification (.DeviceResponseErrors errors))
  | none =>
    if self.status ≠ 0 then .error (.verification (.UnexpectedStatus self.status))
    else
      match self.documents with
      | none => .error (.verification .NoDocuments)
      | some docs => DeviceResponse.verifyDocsLoop verifyDoc [] docs

/-- `EPHEMERAL_ID_VALIDITY_SECONDS` (10 seconds). -/
def EPHEMERAL_ID_VALIDITY_SECONDS : Int := 10

/-- `SessionType` of `mdoc/src/verifier.rs`. -/
inductive SessionType where
  | SameDevice
  | CrossDevice
  deriving DecidableEq, Repr

/-! ### Session transcript (`mdoc/src/iso/engagement.rs`) -/

/-- `OID4VPHandover`: the OpenID4VP handover structure. -/
structure OID4VPHandover where
  client_id_hash : Bytes
  response_uri_hash : Bytes
  nonce : String
  deriving DecidableEq, Repr

/-- `Handover`; payloads of the non-OpenID4VP variants are opaque byte
strings here, since only the OpenID4VP constructor is under study. -/
inductive Handover where
  | QRHandover
  | NFCHandover (handover : Bytes)
  | SchemeHandoverBytes (reader_engagement : Bytes)
  | OID4VPHandover (handover : OID4VPHandover)
  deriving DecidableEq, Repr

/-- `SessionTranscriptKeyed`; `SessionTranscript` is its `CborSeq` wrapper,
identified with it here. -/
structure SessionTranscriptKeyed where
  device_engagement_bytes : Option Bytes
  ereader_key_bytes : Option Bytes
  handover : Handover
  deriving DecidableEq, Repr

abbrev SessionTranscript := SessionTranscriptKeyed

/-- External primitives used by `SessionTranscript::new_oid4vp`: SHA-256 and
CBOR serialization of a two-element string array
(`cbor_serialize(&[a, b])`). -/
structure TranscriptCrypto where
  sha256 : Bytes → Bytes
  cborSerializePair : String → String → Bytes

/-- `SessionTranscript::new_oid4vp`: no engagement bytes, no ereader key
bytes, an `OID4VPHandover` with the two hashes over `(x, mdoc_nonce)` pairs
and the verifier nonce. `response_uri` is a `BaseUrl` rendered to a string. -/
def SessionTranscript.new_oid4vp (crypto : TranscriptCrypto)
    (response_uri : String) (client_id : String) (nonce : String)
    (mdoc_nonce : String) : SessionTranscript :=
  { device_engagement_bytes := none
    ereader_key_bytes := none
    handover := .OID4VPHandover
      { client_id_hash := crypto.sha256 (crypto.cborSerializePair client_id mdoc_nonce)
        response_uri_hash := crypto.sha256 (crypto.cborSerializePair response_uri mdoc_nonce)
        nonce := nonce } }

end Mdoc

namespace Openid4vc

open Mdoc (SessionType EPHEMERAL_ID_VALIDITY_SECONDS)

/-! ## Disclosure session types (`openid4vc/src/verifier.rs`) -/

abbrev ReturnUrlTemplate := String
abbrev Url := String
abbrev Jwt := String
abbrev AuthResponseError := String

/-- The signed Authorization Request; only its identity matters to the
state machine, so a representative pair of fields stands for it. -/
structure VpAuthorizationRequest where
  nonce : String
  response_uri : Url
  deriving DecidableEq, Repr

/-- The ephemeral encryption key pair retained by the verifier (opaque). -/
structure EncryptionPrivateKey where
  key : Bytes
  deriving DecidableEq, Repr

/-- One `ItemsRequest`: requested attributes grouped by namespace, each
with an intent-to-retain flag. -/
structure ItemsRequest where
  doc_type : NlWallet.DocType
  name_spaces : List (NlWallet.NameSpace × List (String × Bool))
  deriving DecidableEq, Repr

abbrev ItemsRequests := List ItemsRequest

abbrev DisclosedAttributes := List (NlWallet.DocType × Mdoc.DocumentDisclosedAttributes)

/-- State `Created`. -/
structure Created where
  items_requests : ItemsRequests
  usecase_id : String
  client_id : String
  redirect_uri_template : Option ReturnUrlTemplate
  deriving DecidableEq, Repr

/-- A pending redirect URI: template plus random nonce. -/
structure RedirectUri where
  template : ReturnUrlTemplate
  nonce : String
  deriving DecidableEq, Repr

/-- State `WaitingForResponse`. -/
structure WaitingForResponse where
  auth_request : VpAuthorizationRequest
  encryption_key : EncryptionPrivateKey
  redirect_uri : Option RedirectUri
  deriving DecidableEq, Repr

/-- `SessionResult`: the terminal outcome of a session. -/
inductive SessionResult where
  | Done (disclosed_attributes : DisclosedAttributes) (redirect_uri_nonce : Option String)
  | Failed (error : String)
  | Cancelled
  | Expired
  deriving DecidableEq, Repr

/-- State `Done`. -/
structure Done where
  session_result : SessionResult
  deriving DecidableEq, Repr

/-- The stored, state-tagged session payload. -/
inductive DisclosureData where
  | Created (c : Created)
  | WaitingForResponse (w : WaitingForResponse)
  | Done (d : Done)
  deriving DecidableEq, Repr

/-- `SessionState` of `mdoc/src/server_state.rs` (declared outside the
translated sources; fields as used by the verifier: payload, token and
`last_active` timestamp, the latter refreshed by `SessionState::new`). -/
structure SessionState (α : Type) where
  data : α
  token : SessionToken
  last_active : Int
  deriving DecidableEq, Repr

/-- `SessionState::new`, stamping the current time as `last_active`. -/
def SessionState.new {α : Type} (now : Int) (token : SessionToken) (data : α) :
    SessionState α :=
  { data := data, token := token, last_active := now }

/-- The typestate wrapper `Session<S>`. -/
structure Session (α : Type) where
  state : SessionState α
  deriving DecidableEq, Repr

inductive SessionError where
  | UnexpectedState
  | UnknownSession (token : SessionToken)
  | SessionStore (msg : String)
  deriving DecidableEq, Repr

/-- `TryFrom<SessionState<DisclosureData>> for Session<Created>`. -/
def Session.try_from_created (value : SessionState DisclosureData) :
    Except SessionError (Session Created) :=
  match value.data with
  | .Created session_data =>
    .ok { state := { data := session_data, token := value.token,
                     last_active := value.last_active } }
  | _ => .error .UnexpectedState

/-- `TryFrom<SessionState<DisclosureData>> for Session<WaitingForResponse>`. -/
def Session.try_from_waiting (value : SessionState DisclosureData) :
    Except SessionError (Session WaitingForResponse) :=
  match value.data with
  | .WaitingForResponse session_data =>
    .ok { state := { data := session_data, token := value.token,
                     last_active := value.last_active } }
  | _ => .error .UnexpectedState

/-- `From<Session<WaitingForResponse>> for SessionState<DisclosureData>`. -/
def Session.waiting_into_state (s : Session WaitingForResponse) :
    SessionState DisclosureData :=
  { data := .WaitingForResponse s.state.data, token := s.state.token,
    last_active := s.state.last_active }

/-- `From<Session<Done>> for SessionState<DisclosureData>`. -/
def Session.done_into_state (s : Session Done) : SessionState DisclosureData :=
  { data := .Done s.state.data, token := s.state.token,
    last_active := s.state.last_active }

/-- `Session::transition`: consume the old state, stamp `last_active`. -/
def Session.transition {α β : Type} (s : Session α) (now : Int) (new_state : β) :
    Session β :=
  { state := SessionState.new now s.state.token new_state }

/-- `Session::transition_fail` (the error pre-rendered to a string, as the
source stores `error.to_string()`). -/
def Session.transition_fail {α : Type} (s : Session α) (now : Int) (error : String) :
    Session Done :=
  s.transition now { session_result := SessionResult.Failed error }

/-- `Session::<WaitingForResponse>::transition_finish`. -/
def Session.transition_finish (s : Session WaitingForResponse) (now : Int)
    (disclosed_attributes : DisclosedAttributes) (nonce : Option String) :
    Session Done :=
  s.transition now { session_result := SessionResult.Done disclosed_attributes nonce }

/-- `Session::<WaitingForResponse>::transition_abort`. -/
def Session.transition_abort (s : Session WaitingForResponse) (now : Int) :
    Session Done :=
  s.transition now { session_result := SessionResult.Cancelled }

/-! ## Ephemeral session IDs -/

/-- `VerifierUrlParameters` of the status-polling URL. -/
structure VerifierUrlParameters where
  session_type : SessionType
  ephemeral_id : Bytes
  time : Int
  deriving DecidableEq, Repr

/-- Errors of the Authorization Request endpoint (`GetAuthRequestError`);
payloads of externally-produced variants are diagnostic strings. -/
inductive GetAuthRequestError where
  | Session (e : SessionError)
  | InvalidEphemeralId (id : Bytes)
  | ExpiredEphemeralId (id : Bytes)
  | EncryptionKey (msg : String)
  | AuthRequest (msg : String)
  | Jwt (msg : String)
  deriving DecidableEq, Repr

/-- External primitives of the ephemeral-ID scheme: HMAC-SHA256 with the
verifier's `ephemeral_id_secret` folded in (`ring::hmac`), and RFC 3339
rendering of a timestamp (`chrono`). -/
structure EphemeralIdContext where
  hmacSign : String → Bytes
  rfc3339 : Int → String

/-- `Verifier::format_ephemeral_id_payload`:
`format!("{}|{}", session_token, time.to_rfc3339())`. -/
def format_ephemeral_id_payload (ctx : EphemeralIdContext)
    (session_token : SessionToken) (time : Int) : String :=
  session_token ++ "|" ++ ctx.rfc3339 time

/-- `Verifier::generate_ephemeral_id`. -/
def generate_ephemeral_id (ctx : EphemeralIdContext)
    (session_token : SessionToken) (time : Int) : Bytes :=
  ctx.hmacSign (format_ephemeral_id_payload ctx session_token time)

/-- `Verifier::verify_ephemeral_id`: staleness first, then the HMAC
comparison (`ring::hmac::verify` recomputes the tag and compares). -/
def verify_ephemeral_id (ctx : EphemeralIdContext) (now : Int)
    (session_token : SessionToken) (url_params : VerifierUrlParameters) :
    Except GetAuthRequestError Unit :=
  if now - EPHEMERAL_ID_VALIDITY_SECONDS > url_params.time then
    .error (.ExpiredEphemeralId url_params.ephemeral_id)
  else if ctx.hmacSign (format_ephemeral_id_payload ctx session_token url_params.time)
          = url_params.ephemeral_id then
    .ok ()
  else
    .error (.InvalidEphemeralId url_params.ephemeral_id)

/-! ## Wallet responses and endpoint errors -/

/-- OAuth authorization error codes (`AuthorizationErrorCode`); variants
other than `AccessDenied` are represented by two stand-ins, which is all
the state machine distinguishes. -/
inductive AuthorizationErrorCode where
  | AccessDenied
  | InvalidRequest
  | ServerError
  deriving DecidableEq, Repr

/-- `VpAuthorizationErrorCode`: plain authorization codes plus the
OpenID4VP-specific codes (collapsed to a string). -/
inductive VpAuthorizationErrorCode where
  | AuthorizationError (c : AuthorizationErrorCode)
  | VpSpecific (code : String)
  deriving DecidableEq, Repr

/-- `ErrorResponse`. -/
structure ErrorResponse (α : Type) where
  error : α
  error_description : Option String
  deriving DecidableEq, Repr

/-- `WalletAuthResponse`: an Authorization Response JWE or a wallet error. -/
inductive WalletAuthResponse where
  | Response (jwe : String)
  | Error (err : ErrorResponse VpAuthorizationErrorCode)
  deriving DecidableEq, Repr

/-- `PostAuthResponseError`. -/
inductive PostAuthResponseError where
  | Session (e : SessionError)
  | AuthResponse (e : AuthResponseError)
  | UserError (err : ErrorResponse VpAuthorizationErrorCode)
  deriving DecidableEq, Repr

/-- `VerificationError` of `openid4vc/src/verifier.rs`. -/
inductive VerificationError where
  | Session (e : SessionError)
  | SessionIsDone
  | UnknownUseCase (usecase : String)
  | ReturnUrlConfigurationMismatch
  | NoItemsRequests
  | SessionNotDone
  | RedirectUriMismatch (nonce : String)
  | RedirectUriMissing
  | MissingSAN
  deriving DecidableEq, Repr

/-- Diagnostic rendering of `GetAuthRequestError` (its `Display` impl),
stored by `transition_fail`; the exact text is not load-bearing. -/
def GetAuthRequestError.render : GetAuthRequestError → String
  | .Session _ => "session error"
  | .InvalidEphemeralId _ => "the ephemeral ID is invalid"
  | .ExpiredEphemeralId _ => "the ephemeral ID has expired"
  | .EncryptionKey m => m
  | .AuthRequest m => m
  | .Jwt m => m

/-- Diagnostic rendering of `PostAuthResponseError`. -/
def PostAuthResponseError.render : PostAuthResponseError → String
  | .Session _ => "session error"
  | .AuthResponse m => m
  | .UserError _ => "user aborted with error"

/-! ## Redirect URIs -/

/-- Helper for `listReplace`: while `skip` is positive the characters are
part of an already-replaced occurrence and are dropped. -/
def listReplaceAux (pattern repl : List Char) : Nat → List Char → List Char
  | _, [] => []
  | Nat.succ k, _ :: rest => listReplaceAux pattern repl k rest
  | 0, c :: rest =>
    if pattern ≠ [] ∧ List.take pattern.length (c :: rest) = pattern then
      repl ++ listReplaceAux pattern repl (pattern.length - 1) rest
    else
      c :: listReplaceAux pattern repl 0 rest

/-- Left-to-right, non-overlapping replacement of `pattern` by `repl` in a
character list (kernel-computable stand-in for `str::replace`). -/
def listReplace (pattern repl l : List Char) : List Char :=
  listReplaceAux pattern repl 0 l

/-- `ReturnUrlTemplate::into_url`: substitute the session token into the
template (`strfmt`). -/
def ReturnUrlTemplate.into_url (template : ReturnUrlTemplate)
    (session_token : SessionToken) : Url :=
  String.mk (listReplace ("{session_token}".toList) session_token.toList template.toList)

/-- `RedirectUri::into_url`: format the template and append the nonce as a
query pair. -/
def RedirectUri.into_url (self : RedirectUri) (session_token : SessionToken) : Url :=
  let url := self.template.into_url session_token
  url ++ (if url.toList.contains '?' then "&" else "?") ++ "nonce=" ++ self.nonce

/-- `VpResponse`: the body answered to the wallet. -/
structure VpResponse where
  redirect_uri : Option Url
  deriving DecidableEq, Repr

/-! ## The typestate transitions -/

/-- `Session::<WaitingForResponse>::ok_response`. -/
def Session.ok_response (s : Session WaitingForResponse)
    (session_token : SessionToken) : VpResponse :=
  { redirect_uri := s.state.data.redirect_uri.map (fun u => u.into_url session_token) }

/-- `Session::<Created>::process_get_request`: the effectful inner step
(`process_get_request_inner`, which draws randomness and signs the
Authorization Request) is passed in by its outcome `inner`. On success the
session transitions to `WaitingForResponse`; on failure to `Done{Failed}`. -/
def Session.process_get_request (s : Session Created) (now : Int)
    (inner : Except GetAuthRequestError
      (Jwt × VpAuthorizationRequest × Option RedirectUri × EncryptionPrivateKey)) :
    Except (GetAuthRequestError × Session Done) (Jwt × Session WaitingForResponse) :=
  match inner with
  | .ok (jws, auth_request, redirect_uri, enc_keypair) =>
    .ok (jws, s.transition now
      { auth_request := auth_request, encryption_key := enc_keypair,
        redirect_uri := redirect_uri })
  | .error err => .error (err, s.transition_fail now err.render)

/-- `Session::<WaitingForResponse>::process_authorization_response`; the
JWE decryption/verification step (`VpAuthorizationResponse::
decrypt_and_verify`, external crypto) is the parameter
`decrypt_and_verify`. -/
def Session.process_authorization_response (s : Session WaitingForResponse)
    (now : Int) (session_token : SessionToken)
    (decrypt_and_verify : String → EncryptionPrivateKey → VpAuthorizationRequest →
      Except AuthResponseError DisclosedAttributes)
    (wallet_response : WalletAuthResponse) :
    (Except PostAuthResponseError VpResponse) × Session Done :=
  match wallet_response with
  | .Error err =>
    let user_refused :=
      match err.error with
      | .AuthorizationError .AccessDenied => true
      | _ => false
    let response := s.ok_response session_token
    let next :=
      if user_refused then s.transition_abort now
      else s.transition_fail now (PostAuthResponseError.UserError err).render
    (.ok response, next)
  | .Response jwe =>
    match decrypt_and_verify jwe s.state.data.encryption_key s.state.data.auth_request with
    | .ok disclosed =>
      let nonce := s.state.data.redirect_uri.map (fun r => r.nonce)
      (.ok (s.ok_response session_token), s.transition_finish now disclosed nonce)
    | .error err => (.error (.AuthResponse err), s.transition_fail now err)

/-! ## The verifier endpoints -/

/-- The abstract session store, as a map from tokens to stored sessions. -/
abbrev SessionStore := SessionToken → Option (SessionState DisclosureData)

/-- `SessionStore::write`: store the session under its own token. -/
def SessionStore.write (store : SessionStore) (state : SessionState DisclosureData) :
    SessionStore :=
  fun t => if t = state.token then some state else store t

/-- The `Verifier`, with the external effects of its endpoints bundled:
the ephemeral-ID primitives, the outcome of `process_get_request_inner`
(as a function of the `Created` data) and the JWE decryption step. -/
structure Verifier where
  ephemeral : EphemeralIdContext
  inner : Created → Except GetAuthRequestError
    (Jwt × VpAuthorizationRequest × Option RedirectUri × EncryptionPrivateKey)
  decrypt_and_verify : String → EncryptionPrivateKey → VpAuthorizationRequest →
    Except AuthResponseError DisclosedAttributes

/-- `Verifier::process_get_request`: load the session, require state
`Created`, verify the ephemeral ID, run the inner step and write the next
state back. An early `?`-return (unknown session, wrong state, ephemeral-ID
failure) leaves the store untouched. -/
def Verifier.process_get_request (v : Verifier) (now : Int) (store : SessionStore)
    (session_token : SessionToken) (url_params : VerifierUrlParameters) :
    (Except GetAuthRequestError Jwt) × SessionStore :=
  match store session_token with
  | none => (.error (.Session (.UnknownSession session_token)), store)
  | some state =>
    match Session.try_from_created state with
    | .error e => (.error (.Session e), store)
    | .ok session =>
      match verify_ephemeral_id v.ephemeral now session_token url_params with
      | .error e => (.error e, store)
      | .ok _ =>
        match session.process_get_request now (v.inner session.state.data) with
        | .ok (jws, next) => (.ok jws, store.write next.waiting_into_state)
        | .error (err, next) => (.error err, store.write next.done_into_state)

/-- `Verifier::process_authorization_response`: load the session, require
state `WaitingForResponse`, process the wallet response and write the next
(`Done`) state back. -/
def Verifier.process_authorization_response (v : Verifier) (now : Int)
    (store : SessionStore) (session_token : SessionToken)
    (wallet_response : WalletAuthResponse) :
    (Except PostAuthResponseError VpResponse) × SessionStore :=
  match store session_token with
  | none => (.error (.Session (.UnknownSession session_token)), store)
  | some state =>
    match Session.try_from_waiting state with
    | .error e => (.error (.Session e), store)
    | .ok session =>
      let rn := session.process_authorization_response now session_token
        v.decrypt_and_verify wallet_response
      (rn.1, store.write rn.2.done_into_state)

/-- `Verifier::disclosed_attributes`: only a `Done{Done}` session yields
attributes, gated by the redirect-URI nonce when one is expected. -/
def Verifier.disclosed_attributes (store : SessionStore)
    (session_token : SessionToken) (redirect_uri_nonce : Option String) :
    Except VerificationError DisclosedAttributes :=
  match store session_token with
  | none => .error (.Session (.UnknownSession session_token))
  | some state =>
    match state.data with
    | .Done { session_result := .Done disclosed_attributes expected_nonce } =>
      match redirect_uri_nonce, expected_nonce with
      | _, none => .ok disclosed_attributes
      | none, some _ => .error .RedirectUriMissing
      | some received, some expected =>
        if received = expected then .ok disclosed_attributes
        else .error (.RedirectUriMismatch received)
    | _ => .error .SessionNotDone

end Openid4vc

/-! ## Concrete sample objects

Concrete instantiations of the external-primitive environments and of the
data model, used to evaluate the embedded code on closed inputs. -/

namespace Samples

open Mdoc Openid4vc

/-- A concrete, collision-free-on-small-inputs stand-in for the HMAC and
the RFC 3339 rendering. -/
def sampleEphCtx : EphemeralIdContext :=
  { hmacSign := fun s => s.toList.map Char.toNat
    rfc3339 := fun t => toString t }

def sampleCreated : Created :=
  { items_requests := [⟨"org.iso.18013.5.1.mDL", [("org.iso.18013.5.1", [("given_name", true)])]⟩]
    usecase_id := "uc"
    client_id := "cid"
    redirect_uri_template := none }

def sampleWaiting : WaitingForResponse :=
  { auth_request := ⟨"req_nonce", "https://verifier.example.com/response_uri/tok"⟩
    encryption_key := ⟨[1, 2, 3]⟩
    redirect_uri := some ⟨"https://rp.example.com/{session_token}", "rn"⟩ }

/-- A verifier whose inner request processing always fails and whose JWE
decryption always fails (the branches a failing GET exercises). -/
def sampleVerifier : Verifier :=
  { ephemeral := sampleEphCtx
    inner := fun _ => .error (.EncryptionKey "keygen failed")
    decrypt_and_verify := fun _ _ _ => .error "decrypt failed" }

/-- A verifier whose inner request processing succeeds. -/
def sampleVerifierOk : Verifier :=
  { ephemeral := sampleEphCtx
    inner := fun _ => .ok ("jws", ⟨"req_nonce", "https://v.example.com/ru"⟩, none, ⟨[9]⟩)
    decrypt_and_verify := fun _ _ _ => .ok [] }

def sampleStoreCreated : SessionStore :=
  fun _ => some ⟨.Created sampleCreated, "tok", 0⟩

def sampleStoreWaiting : SessionStore :=
  fun _ => some ⟨.WaitingForResponse sampleWaiting, "tok", 0⟩

def sampleAttrs : DisclosedAttributes :=
  [("org.iso.18013.5.1.mDL",
    { attributes := [("org.iso.18013.5.1", [⟨"given_name", .text "Alice"⟩])]
      issuer := ["Example Issuer"]
      validity_info := ⟨0, 0, 100⟩ })]

def sampleStoreDoneWithNonce : SessionStore :=
  fun _ => some ⟨.Done ⟨.Done sampleAttrs (some "rn")⟩, "tok", 0⟩

def sampleStoreDoneFailed : SessionStore :=
  fun _ => some ⟨.Done ⟨.Failed "boom"⟩, "tok", 0⟩

/-- A concrete digest function standing in for `cbor_digest` (SHA-256 of
the CBOR serialization): injective on the sample inputs. -/
def sampleCborDigest (item : IssuerSignedItem) : Except Error Digest :=
  .ok (item.digest_id :: item.random ++ item.element_identifier.toList.map Char.toNat
        ++ (match item.element_value with
            | .text s => 0 :: s.toList.map Char.toNat
            | .int i => [1, i.toNat]
            | .boolean b => [2, if b then 1 else 0]))

def sampleItem : IssuerSignedItem := ⟨0, [7], "given_name", .text "Alice"⟩

def sampleItemAltered : IssuerSignedItem := ⟨0, [7], "given_name", .text "Mallory"⟩

def sampleMso : MobileSecurityObject :=
  { doc_type := "org.iso.18013.5.1.mDL"
    value_digests := [("org.iso.18013.5.1",
      [(0, ((sampleCborDigest sampleItem).toOption.getD []))])]
    validity_info := ⟨0, 0, 100⟩ }

def sampleMdocCrypto : MdocCrypto :=
  { authVerify := fun _ => .ok sampleMso
    signingCertCommonName := fun _ => .ok ["Example Issuer"]
    cbor_digest := sampleCborDigest }

def sampleIssuerSigned : IssuerSigned :=
  { name_spaces := some [("org.iso.18013.5.1", [sampleItem])]
    issuer_auth := 0 }

/-- Concrete stand-ins for SHA-256 and two-element-array CBOR
serialization, injective on the sample inputs. -/
def sampleTranscriptCrypto : TranscriptCrypto :=
  { sha256 := fun b => b.length :: b
    cborSerializePair := fun a b => (a ++ "|" ++ b).toList.map Char.toNat }

end Samples

/-! ## Theorems -/

open Mdoc Openid4vc Samples

/-- C10: ephemeral ID verification places no upper bound on the embedded
timestamp. For every timestamp at or after `now` minus the 10-second
validity window — including timestamps arbitrarily far in the future —
`verify_ephemeral_id` never returns `ExpiredEphemeralId`, and verification
succeeds exactly when the HMAC over the token and that timestamp matches
the presented ephemeral ID. -/
theorem C10_no_upper_bound_on_ephemeral_timestamp
    (ctx : EphemeralIdContext) (now : Int) (token : SessionToken)
    (params : VerifierUrlParameters)
    (h : now - EPHEMERAL_ID_VALIDITY_SECONDS ≤ params.time) :
    verify_ephemeral_id ctx now token params =
      (if ctx.hmacSign (format_ephemeral_id_payload ctx token params.time)
            = params.ephemeral_id
       then .ok ()
       else .error (.InvalidEphemeralId params.ephemeral_id)) ∧
    ∀ id, verify_ephemeral_id ctx now token params ≠
      .error (.ExpiredEphemeralId id) := by
  have hnot : ¬ (now - EPHEMERAL_ID_VALIDITY_SECONDS > params.time) := not_lt.mpr h
  unfold verify_ephemeral_id
  rw [if_neg hnot]
  refine ⟨rfl, ?_⟩
  intro id
  by_cases hm : ctx.hmacSign (format_ephemeral_id_payload ctx token params.time)
      = params.ephemeral_id
  · rw [if_pos hm]; simp
  · rw [if_neg hm]; simp

/-- C10 witness: a timestamp one million seconds in the future of `now = 0`
is not treated as expired, and a matching HMAC verifies. -/
theorem C10_no_upper_bound_on_ephemeral_timestamp_witness :
    verify_ephemeral_id sampleEphCtx 0 "tok"
        ⟨.SameDevice, generate_ephemeral_id sampleEphCtx "tok" 1000000, 1000000⟩ =
      (if sampleEphCtx.hmacSign
            (format_ephemeral_id_payload sampleEphCtx "tok" 1000000)
            = generate_ephemeral_id sampleEphCtx "tok" 1000000
       then .ok ()
       else .error (.InvalidEphemeralId
              (generate_ephemeral_id sampleEphCtx "tok" 1000000))) ∧
    ∀ id, verify_ephemeral_id sampleEphCtx 0 "tok"
        ⟨.SameDevice, generate_ephemeral_id sampleEphCtx "tok" 1000000, 1000000⟩ ≠
      .error (.ExpiredEphemeralId id) :=
  C10_no_upper_bound_on_ephemeral_timestamp sampleEphCtx 0 "tok"
    ⟨.SameDevice, generate_ephemeral_id sampleEphCtx "tok" 1000000, 1000000⟩
    (by decide)

/-- C5: ephemeral ID round trip and expiry. An ID generated at time `T`
and presented untampered verifies at any `now ≤ T + 10s`; at any
`now > T + 10s` the verifier answers `ExpiredEphemeralId` for every
presented ID (the staleness check runs before the HMAC comparison); and a
presented ID whose token or embedded timestamp was tampered with (so that
the recomputed HMAC differs) fails with `InvalidEphemeralId` whenever it is
inside the validity window. -/
theorem C5_ephemeral_id_round_trip_and_expiry :
    (∀ (ctx : EphemeralIdContext) (st : SessionType) (token : SessionToken)
       (T now : Int), now ≤ T + EPHEMERAL_ID_VALIDITY_SECONDS →
       verify_ephemeral_id ctx now token
         ⟨st, generate_ephemeral_id ctx token T, T⟩ = .ok ()) ∧
    (∀ (ctx : EphemeralIdContext) (st : SessionType) (token : SessionToken)
       (T now : Int) (id : Bytes), now > T + EPHEMERAL_ID_VALIDITY_SECONDS →
       verify_ephemeral_id ctx now token ⟨st, id, T⟩ =
         .error (.ExpiredEphemeralId id)) ∧
    (∀ (ctx : EphemeralIdContext) (st : SessionType)
       (token token0 : SessionToken) (T T0 now : Int),
       now ≤ T + EPHEMERAL_ID_VALIDITY_SECONDS →
       ctx.hmacSign (format_ephemeral_id_payload ctx token T) ≠
         ctx.hmacSign (format_ephemeral_id_payload ctx token0 T0) →
       verify_ephemeral_id ctx now token
         ⟨st, generate_ephemeral_id ctx token0 T0, T⟩ =
         .error (.InvalidEphemeralId (generate_ephemeral_id ctx token0 T0))) := by
  refine ⟨?_, ?_, ?_⟩
  · intro ctx st token T now hwin
    have hnot : ¬ (now - EPHEMERAL_ID_VALIDITY_SECONDS > T) := by omega
    unfold verify_ephemeral_id generate_ephemeral_id
    dsimp only
    rw [if_neg hnot, if_pos rfl]
  · intro ctx st token T now id hlate
    have hexp : now - EPHEMERAL_ID_VALIDITY_SECONDS > T := by omega
    unfold verify_ephemeral_id
    dsimp only
    rw [if_pos hexp]
  · intro ctx st token token0 T T0 now hwin hne
    have hnot : ¬ (now - EPHEMERAL_ID_VALIDITY_SECONDS > T) := by omega
    unfold verify_ephemeral_id generate_ephemeral_id
    dsimp only
    rw [if_neg hnot, if_neg hne]

/-- C5 witness: with the sample HMAC, an ID generated at `T = 0` verifies
at `now = 9`, expires at `now = 11` (whatever ID is presented), and an ID
generated for a different token fails as invalid at `now = 9`. -/
theorem C5_ephemeral_id_round_trip_and_expiry_witness :
    verify_ephemeral_id sampleEphCtx 9 "tok"
      ⟨.SameDevice, generate_ephemeral_id sampleEphCtx "tok" 0, 0⟩ = .ok () ∧
    verify_ephemeral_id sampleEphCtx 11 "tok"
      ⟨.SameDevice, generate_ephemeral_id sampleEphCtx "tok" 0, 0⟩ =
        .error (.ExpiredEphemeralId (generate_ephemeral_id sampleEphCtx "tok" 0)) ∧
    verify_ephemeral_id sampleEphCtx 9 "tok"
      ⟨.SameDevice, generate_ephemeral_id sampleEphCtx "other" 0, 0⟩ =
        .error (.InvalidEphemeralId (generate_ephemeral_id sampleEphCtx "other" 0)) :=
  ⟨C5_ephemeral_id_round_trip_and_expiry.1 sampleEphCtx .SameDevice "tok" 0 9
      (by decide),
   C5_ephemeral_id_round_trip_and_expiry.2.1 sampleEphCtx .SameDevice "tok" 0 11
      (generate_ephemeral_id sampleEphCtx "tok" 0) (by decide),
   C5_ephemeral_id_round_trip_and_expiry.2.2 sampleEphCtx .SameDevice "tok" "other"
      0 0 9 (by decide) (by decide)⟩

/-- C9: the OpenID4VP session transcript is a deterministic function of its
four inputs, with no device engagement bytes, no ereader key bytes, and an
`OID4VPHandover` carrying `SHA256(CBOR([client_id, mdoc_nonce]))`,
`SHA256(CBOR([response_uri, mdoc_nonce]))` and the nonce; equal inputs give
equal transcripts, and changing the nonce — or changing the response URI or
the client ID, whenever the corresponding hash input pair hashes
differently — changes the output. -/
theorem C9_oid4vp_transcript_deterministic :
    (∀ (crypto : TranscriptCrypto) (r c n m : String),
       (SessionTranscript.new_oid4vp crypto r c n m).device_engagement_bytes = none ∧
       (SessionTranscript.new_oid4vp crypto r c n m).ereader_key_bytes = none ∧
       (SessionTranscript.new_oid4vp crypto r c n m).handover =
         .OID4VPHandover
           { client_id_hash := crypto.sha256 (crypto.cborSerializePair c m)
             response_uri_hash := crypto.sha256 (crypto.cborSerializePair r m)
             nonce := n }) ∧
    (∀ (crypto : TranscriptCrypto) (r r' c c' n n' m m' : String),
       r = r' → c = c' → n = n' → m = m' →
       SessionTranscript.new_oid4vp crypto r c n m =
         SessionTranscript.new_oid4vp crypto r' c' n' m') ∧
    (∀ (crypto : TranscriptCrypto) (r c n n' m : String), n ≠ n' →
       SessionTranscript.new_oid4vp crypto r c n m ≠
         SessionTranscript.new_oid4vp crypto r c n' m) ∧
    (∀ (crypto : TranscriptCrypto) (r r' c n m : String),
       crypto.sha256 (crypto.cborSerializePair r m) ≠
         crypto.sha256 (crypto.cborSerializePair r' m) →
       SessionTranscript.new_oid4vp crypto r c n m ≠
         SessionTranscript.new_oid4vp crypto r' c n m) ∧
    (∀ (crypto : TranscriptCrypto) (r c c' n m : String),
       crypto.sha256 (crypto.cborSerializePair c m) ≠
         crypto.sha256 (crypto.cborSerializePair c' m) →
       SessionTranscript.new_oid4vp crypto r c n m ≠
         SessionTranscript.new_oid4vp crypto r c' n m) := by
  refine ⟨?_, ?_, ?_, ?_, ?_⟩
  · intro crypto r c n m
    exact ⟨rfl, rfl, rfl⟩
  · intro crypto r r' c c' n n' m m' hr hc hn hm
    rw [hr, hc, hn, hm]
  · intro crypto r c n n' m hn heq
    apply hn
    have := congrArg SessionTranscriptKeyed.handover heq
    simpa [SessionTranscript.new_oid4vp] using this
  · intro crypto r r' c n m hhash heq
    apply hhash
    have := congrArg SessionTranscriptKeyed.handover heq
    simpa [SessionTranscript.new_oid4vp] using this
  · intro crypto r c c' n m hhash heq
    apply hhash
    have := congrArg SessionTranscriptKeyed.handover heq
    simpa [SessionTranscript.new_oid4vp] using this

/-- C9 witness: concrete transcripts with the sample hash functions —
the handover has the specified shape, and changing the nonce, the response
URI or the client ID changes the transcript. -/
theorem C9_oid4vp_transcript_deterministic_witness :
    (SessionTranscriptKeyed.device_engagement_bytes
        (SessionTranscript.new_oid4vp sampleTranscriptCrypto "https://a" "cid" "n1" "m") = none ∧
     SessionTranscriptKeyed.ereader_key_bytes
        (SessionTranscript.new_oid4vp sampleTranscriptCrypto "https://a" "cid" "n1" "m") = none ∧
     SessionTranscriptKeyed.handover
        (SessionTranscript.new_oid4vp sampleTranscriptCrypto "https://a" "cid" "n1" "m") =
       Handover.OID4VPHandover
          { client_id_hash :=
              sampleTranscriptCrypto.sha256 (sampleTranscriptCrypto.cborSerializePair "cid" "m")
            response_uri_hash :=
              sampleTranscriptCrypto.sha256 (sampleTranscriptCrypto.cborSerializePair "https://a" "m")
            nonce := "n1" }) ∧
    SessionTranscript.new_oid4vp sampleTranscriptCrypto "https://a" "cid" "n1" "m" ≠
      SessionTranscript.new_oid4vp sampleTranscriptCrypto "https://a" "cid" "n2" "m" ∧
    SessionTranscript.new_oid4vp sampleTranscriptCrypto "https://a" "cid" "n1" "m" ≠
      SessionTranscript.new_oid4vp sampleTranscriptCrypto "https://b" "cid" "n1" "m" ∧
    SessionTranscript.new_oid4vp sampleTranscriptCrypto "https://a" "cid" "n1" "m" ≠
      SessionTranscript.new_oid4vp sampleTranscriptCrypto "https://a" "cid2" "n1" "m" :=
  ⟨C9_oid4vp_transcript_deterministic.1 sampleTranscriptCrypto "https://a" "cid" "n1" "m",
   C9_oid4vp_transcript_deterministic.2.2.1 sampleTranscriptCrypto "https://a" "cid"
     "n1" "n2" "m" (by decide),
   C9_oid4vp_transcript_deterministic.2.2.2.1 sampleTranscriptCrypto "https://a"
     "https://b" "cid" "n1" "m" (by decide),
   C9_oid4vp_transcript_deterministic.2.2.2.2 sampleTranscriptCrypto "https://a"
     "cid" "cid2" "n1" "m" (by decide)⟩

/-- C4 counterexample: the claim says a response containing zero documents
is rejected with `NoDocuments`, but a `DeviceResponse` whose `documents`
field is present-but-empty (`Some(vec![])`) contains zero documents and
still verifies successfully (to an empty attribute map). Only an absent
`documents` field yields `NoDocuments`. -/
theorem C4_counterexample_empty_documents_list :
    (DeviceResponse.mk "1.0" (some []) none 0).documents = some ([] : List Document) ∧
    DeviceResponse.verify (DeviceResponse.mk "1.0" (some []) none 0)
      (fun _ => .error (.cose "unused")) = .ok [] ∧
    DeviceResponse.verify (DeviceResponse.mk "1.0" (some []) none 0)
      (fun _ => .error (.cose "unused")) ≠
      .error (.verification .NoDocuments) := by
  refine ⟨rfl, rfl, ?_⟩
  decide

/-- C4 (amended): `DeviceResponse::verify` performs three whole-response
checks, in order, before any per-document verification: embedded
per-document error entries give `DeviceResponseErrors`, a non-zero
top-level status gives `UnexpectedStatus`, and an absent `documents` field
gives `NoDocuments` (a present-but-empty document list is not rejected and
verifies to the empty attribute map). A response failing any of the three
checks is rejected identically under every per-document verifier, and only
a response passing all three has its documents individually verified. -/
theorem C4_device_response_wholesale_rejection :
    (∀ (verifyDoc : Document → Except Error (DocType × DocumentDisclosedAttributes))
       (resp : DeviceResponse) (errs : List DocumentError),
       resp.document_errors = some errs →
       resp.verify verifyDoc = .error (.verification (.DeviceResponseErrors errs))) ∧
    (∀ (verifyDoc : Document → Except Error (DocType × DocumentDisclosedAttributes))
       (resp : DeviceResponse),
       resp.document_errors = none → resp.status ≠ 0 →
       resp.verify verifyDoc = .error (.verification (.UnexpectedStatus resp.status))) ∧
    (∀ (verifyDoc : Document → Except Error (DocType × DocumentDisclosedAttributes))
       (resp : DeviceResponse),
       resp.document_errors = none → resp.status = 0 → resp.documents = none →
       resp.verify verifyDoc = .error (.verification .NoDocuments)) ∧
    (∀ (verifyDoc : Document → Except Error (DocType × DocumentDisclosedAttributes))
       (resp : DeviceResponse),
       resp.document_errors = none → resp.status = 0 → resp.documents = some [] →
       resp.verify verifyDoc = .ok []) ∧
    (∀ (f g : Document → Except Error (DocType × DocumentDisclosedAttributes))
       (resp : DeviceResponse),
       (resp.document_errors ≠ none ∨ resp.status ≠ 0 ∨ resp.documents = none) →
       resp.verify f = resp.verify g) ∧
    (∀ (verifyDoc : Document → Except Error (DocType × DocumentDisclosedAttributes))
       (resp : DeviceResponse) (docs : List Document),
       resp.document_errors = none → resp.status = 0 → resp.documents = some docs →
       resp.verify verifyDoc = DeviceResponse.verifyDocsLoop verifyDoc [] docs) := by
  refine ⟨?_, ?_, ?_, ?_, ?_, ?_⟩
  · intro verifyDoc resp errs herr
    unfold DeviceResponse.verify
    rw [herr]
  · intro verifyDoc resp herr hst
    unfold DeviceResponse.verify
    rw [herr, if_pos hst]
  · intro verifyDoc resp herr hst hdoc
    unfold DeviceResponse.verify
    rw [herr, if_neg (by simp [hst]), hdoc]
  · intro verifyDoc resp herr hst hdoc
    unfold DeviceResponse.verify
    rw [herr, if_neg (by simp [hst]), hdoc]
    rfl
  · intro f g resp hrej
    unfold DeviceResponse.verify
    rcases h : resp.document_errors with _ | errs
    · dsimp only
      rcases hrej with herr | hst | hdoc
      · exact absurd h herr
      · simp only [if_pos hst]
      · by_cases hst2 : resp.status ≠ 0
        · simp only [if_pos hst2]
        · simp only [if_neg hst2, hdoc]
    · rfl
  · intro verifyDoc resp docs herr hst hdoc
    unfold DeviceResponse.verify
    rw [herr, if_neg (by simp [hst]), hdoc]

/-- C4 witness: the three rejections, the empty-list acceptance, the
independence from the per-document verifier, and the pass-through to the
per-document loop, at concrete responses. -/
theorem C4_device_response_wholesale_rejection_witness :
    DeviceResponse.verify (DeviceResponse.mk "1.0" none (some [[("d", 1)]]) 0)
      (fun _ => .error (.cose "unused")) =
      .error (.verification (.DeviceResponseErrors [[("d", 1)]])) ∧
    DeviceResponse.verify (DeviceResponse.mk "1.0" none none 10)
      (fun _ => .error (.cose "unused")) =
      .error (.verification (.UnexpectedStatus 10)) ∧
    DeviceResponse.verify (DeviceResponse.mk "1.0" none none 0)
      (fun _ => .error (.cose "unused")) =
      .error (.verification .NoDocuments) ∧
    DeviceResponse.verify (DeviceResponse.mk "1.0" (some []) none 0)
      (fun _ => .error (.cose "unused")) = .ok [] ∧
    DeviceResponse.verify (DeviceResponse.mk "1.0" none none 10)
      (fun _ => .error (.cose "unused")) =
      DeviceResponse.verify (DeviceResponse.mk "1.0" none none 10)
        (fun d => .ok (d.doc_type, ⟨[], [], ⟨0, 0, 0⟩⟩)) ∧
    DeviceResponse.verify (DeviceResponse.mk "1.0" (some []) none 0)
      (fun _ => .error (.cose "unused")) =
      DeviceResponse.verifyDocsLoop (fun _ => .error (.cose "unused")) [] [] :=
  ⟨C4_device_response_wholesale_rejection.1 _ _ [[("d", 1)]] rfl,
   C4_device_response_wholesale_rejection.2.1 _ _ rfl (by decide),
   C4_device_response_wholesale_rejection.2.2.1 _ _ rfl rfl rfl,
   C4_device_response_wholesale_rejection.2.2.2.1 _ _ rfl rfl rfl,
   C4_device_response_wholesale_rejection.2.2.2.2.1 _ _ _ (.inr (.inl (by decide))),
   C4_device_response_wholesale_rejection.2.2.2.2.2 _ _ [] rfl rfl rfl⟩

/-- C6: the `Done` state is terminal. For every stored session whose
`DisclosureData` is `Done` (with any `SessionResult`), both
`process_get_request` and `process_authorization_response` fail with
`SessionError::UnexpectedState` and leave the session store — hence the
stored `Done` session and its `SessionResult` — unchanged. -/
theorem C6_done_state_is_terminal (v : Verifier) (now : Int)
    (store : SessionStore) (token : SessionToken)
    (ss : SessionState DisclosureData) (d : Done)
    (params : VerifierUrlParameters) (wresp : WalletAuthResponse)
    (h1 : store token = some ss) (h2 : ss.data = .Done d) :
    v.process_get_request now store token params =
      (.error (.Session .UnexpectedState), store) ∧
    v.process_authorization_response now store token wresp =
      (.error (.Session .UnexpectedState), store) := by
  obtain ⟨data, tk, la⟩ := ss
  dsimp only at h2
  subst h2
  unfold Verifier.process_get_request Verifier.process_authorization_response
  rw [h1]
  exact ⟨rfl, rfl⟩

/-- C6 witness: a concrete store holding a `Done{Failed}` session rejects
both operations with `UnexpectedState` and is left unchanged. -/
theorem C6_done_state_is_terminal_witness :
    sampleVerifier.process_get_request 5 sampleStoreDoneFailed "tok"
        ⟨.SameDevice, [0], 5⟩ =
      (.error (.Session .UnexpectedState), sampleStoreDoneFailed) ∧
    sampleVerifier.process_authorization_response 5 sampleStoreDoneFailed "tok"
        (.Error ⟨.AuthorizationError .AccessDenied, none⟩) =
      (.error (.Session .UnexpectedState), sampleStoreDoneFailed) :=
  C6_done_state_is_terminal sampleVerifier 5 sampleStoreDoneFailed "tok"
    ⟨.Done ⟨.Failed "boom"⟩, "tok", 0⟩ ⟨.Failed "boom"⟩
    ⟨.SameDevice, [0], 5⟩ (.Error ⟨.AuthorizationError .AccessDenied, none⟩)
    rfl rfl

/-- C7: for a session in `WaitingForResponse`, a wallet-posted error with
code `access_denied` transitions the stored session to `Done{Cancelled}`
and returns a success result whose `VpResponse` carries the redirect URI
exactly when one is configured for the session; a wallet-posted error with
any other code transitions the stored session to `Done{Failed}` (the
error-reporting round-trip itself still succeeding). -/
theorem C7_access_denied_cancels_session (v : Verifier) (now : Int)
    (store : SessionStore) (token : SessionToken)
    (ss : SessionState DisclosureData) (w : WaitingForResponse)
    (err : ErrorResponse VpAuthorizationErrorCode)
    (h1 : store token = some ss) (h2 : ss.data = .WaitingForResponse w) :
    (err.error = .AuthorizationError .AccessDenied →
      v.process_authorization_response now store token (.Error err) =
        (.ok { redirect_uri := w.redirect_uri.map (fun u => u.into_url token) },
         store.write { data := .Done { session_result := .Cancelled },
                       token := ss.token, last_active := now })) ∧
    (err.error ≠ .AuthorizationError .AccessDenied →
      v.process_authorization_response now store token (.Error err) =
        (.ok { redirect_uri := w.redirect_uri.map (fun u => u.into_url token) },
         store.write
           { data := .Done
               { session_result := SessionResult.Failed
                   ((PostAuthResponseError.UserError err).render) }
             token := ss.token
             last_active := now })) := by
  obtain ⟨data, tk, la⟩ := ss
  dsimp only at h2
  subst h2
  obtain ⟨ecode, edesc⟩ := err
  constructor
  · intro hacc
    dsimp only at hacc
    subst hacc
    unfold Verifier.process_authorization_response
    rw [h1]
    rfl
  · intro hne
    unfold Verifier.process_authorization_response
    rw [h1]
    rcases ecode with c | sc
    · rcases c
      · exact absurd rfl hne
      · rfl
      · rfl
    · rfl

/-- C7 witness: with a configured redirect template, `access_denied`
cancels the session and returns the redirect URI; another error code fails
the session. -/
theorem C7_access_denied_cancels_session_witness :
    sampleVerifier.process_authorization_response 7 sampleStoreWaiting "tok"
        (.Error ⟨.AuthorizationError .AccessDenied, none⟩) =
      (.ok { redirect_uri := sampleWaiting.redirect_uri.map
               (fun u => u.into_url "tok") },
       SessionStore.write sampleStoreWaiting
         { data := .Done { session_result := .Cancelled },
           token := "tok", last_active := 7 }) ∧
    sampleVerifier.process_authorization_response 7 sampleStoreWaiting "tok"
        (.Error ⟨.AuthorizationError .ServerError, none⟩) =
      (.ok { redirect_uri := sampleWaiting.redirect_uri.map
               (fun u => u.into_url "tok") },
       SessionStore.write sampleStoreWaiting
         { data := .Done
             { session_result := SessionResult.Failed
                 ((PostAuthResponseError.UserError
                   ⟨.AuthorizationError .ServerError, none⟩).render) }
           token := "tok"
           last_active := 7 }) :=
  ⟨(C7_access_denied_cancels_session sampleVerifier 7 sampleStoreWaiting "tok"
      ⟨.WaitingForResponse sampleWaiting, "tok", 0⟩ sampleWaiting
      ⟨.AuthorizationError .AccessDenied, none⟩ rfl rfl).1 rfl,
   (C7_access_denied_cancels_session sampleVerifier 7 sampleStoreWaiting "tok"
      ⟨.WaitingForResponse sampleWaiting, "tok", 0⟩ sampleWaiting
      ⟨.AuthorizationError .ServerError, none⟩ rfl rfl).2 (by decide)⟩

/-- C8: `disclosed_attributes` returns attributes only for a `Done{Done}`
session: any other stored state (`Created`, `WaitingForResponse`, or `Done`
with `Failed`, `Cancelled` or `Expired`) yields `SessionNotDone`; when the
`Done{Done}` session stores an expected redirect-URI nonce, a missing nonce
yields `RedirectUriMissing`, a non-matching one `RedirectUriMismatch`, and
the exactly matching one the attributes (a session storing no expected
nonce returns the attributes for any provided nonce). -/
theorem C8_disclosed_attributes_gating (store : SessionStore)
    (token : SessionToken) (ss : SessionState DisclosureData)
    (h1 : store token = some ss) :
    (∀ c, ss.data = .Created c → ∀ nonce,
       Verifier.disclosed_attributes store token nonce = .error .SessionNotDone) ∧
    (∀ w, ss.data = .WaitingForResponse w → ∀ nonce,
       Verifier.disclosed_attributes store token nonce = .error .SessionNotDone) ∧
    (∀ e, ss.data = .Done ⟨.Failed e⟩ → ∀ nonce,
       Verifier.disclosed_attributes store token nonce = .error .SessionNotDone) ∧
    (ss.data = .Done ⟨.Cancelled⟩ → ∀ nonce,
       Verifier.disclosed_attributes store token nonce = .error .SessionNotDone) ∧
    (ss.data = .Done ⟨.Expired⟩ → ∀ nonce,
       Verifier.disclosed_attributes store token nonce = .error .SessionNotDone) ∧
    (∀ attrs expected, ss.data = .Done ⟨.Done attrs (some expected)⟩ →
       Verifier.disclosed_attributes store token none = .error .RedirectUriMissing ∧
       (∀ received, received ≠ expected →
          Verifier.disclosed_attributes store token (some received) =
            .error (.RedirectUriMismatch received)) ∧
       Verifier.disclosed_attributes store token (some expected) = .ok attrs) ∧
    (∀ attrs, ss.data = .Done ⟨.Done attrs none⟩ → ∀ nonce,
       Verifier.disclosed_attributes store token nonce = .ok attrs) := by
  obtain ⟨data, tk, la⟩ := ss
  dsimp only
  refine ⟨?_, ?_, ?_, ?_, ?_, ?_, ?_⟩
  · intro c h2 nonce
    subst h2
    unfold Verifier.disclosed_attributes
    rw [h1]
  · intro w h2 nonce
    subst h2
    unfold Verifier.disclosed_attributes
    rw [h1]
  · intro e h2 nonce
    subst h2
    unfold Verifier.disclosed_attributes
    rw [h1]
  · intro h2 nonce
    subst h2
    unfold Verifier.disclosed_attributes
    rw [h1]
  · intro h2 nonce
    subst h2
    unfold Verifier.disclosed_attributes
    rw [h1]
  · intro attrs expected h2
    subst h2
    refine ⟨?_, ?_, ?_⟩
    · unfold Verifier.disclosed_attributes
      rw [h1]
    · intro received hne
      unfold Verifier.disclosed_attributes
      rw [h1]
      dsimp only
      rw [if_neg hne]
    · unfold Verifier.disclosed_attributes
      rw [h1]
      dsimp only
      rw [if_pos rfl]
  · intro attrs h2 nonce
    subst h2
    unfold Verifier.disclosed_attributes
    rw [h1]
    rcases nonce with _ | received <;> rfl

/-- C8 witness: a `Done{Done}` session with expected nonce "rn" — no
nonce is rejected as missing, a wrong nonce as mismatching, the right
nonce returns the attributes; a `Done{Failed}` session yields
`SessionNotDone`. -/
theorem C8_disclosed_attributes_gating_witness :
    Verifier.disclosed_attributes sampleStoreDoneWithNonce "tok" none =
      .error .RedirectUriMissing ∧
    Verifier.disclosed_attributes sampleStoreDoneWithNonce "tok" (some "wrong") =
      .error (.RedirectUriMismatch "wrong") ∧
    Verifier.disclosed_attributes sampleStoreDoneWithNonce "tok" (some "rn") =
      .ok sampleAttrs ∧
    Verifier.disclosed_attributes sampleStoreDoneFailed "tok" (some "rn") =
      .error .SessionNotDone :=
  ⟨((C8_disclosed_attributes_gating sampleStoreDoneWithNonce "tok"
      ⟨.Done ⟨.Done sampleAttrs (some "rn")⟩, "tok", 0⟩ rfl).2.2.2.2.2.1
      sampleAttrs "rn" rfl).1,
   ((C8_disclosed_attributes_gating sampleStoreDoneWithNonce "tok"
      ⟨.Done ⟨.Done sampleAttrs (some "rn")⟩, "tok", 0⟩ rfl).2.2.2.2.2.1
      sampleAttrs "rn" rfl).2.1 "wrong" (by decide),
   ((C8_disclosed_attributes_gating sampleStoreDoneWithNonce "tok"
      ⟨.Done ⟨.Done sampleAttrs (some "rn")⟩, "tok", 0⟩ rfl).2.2.2.2.2.1
      sampleAttrs "rn" rfl).2.2,
   (C8_disclosed_attributes_gating sampleStoreDoneFailed "tok"
      ⟨.Done ⟨.Failed "boom"⟩, "tok", 0⟩ rfl).2.2.1 "boom" rfl (some "rn")⟩

/-- C2 counterexample: the claim says every failing `process_get_request`
on a `Created` session stores `Done{Failed}`, but a GET failing on an
expired ephemeral ID returns before the write — the stored session stays
`Created` (deliberately, per the source comment, so the QR code remains
usable). -/
theorem C2_counterexample_ephemeral_failure_keeps_created :
    (sampleVerifier.process_get_request 100 sampleStoreCreated "tok"
        ⟨.SameDevice, [0], 0⟩).1 = .error (.ExpiredEphemeralId [0]) ∧
    (sampleVerifier.process_get_request 100 sampleStoreCreated "tok"
        ⟨.SameDevice, [0], 0⟩).2 "tok" =
      some ⟨.Created sampleCreated, "tok", 0⟩ :=
  ⟨rfl, rfl⟩

/-- C2 (amended): for a stored `Created` session, a failure of the inner
request processing (after the ephemeral ID verified) transitions the
stored session to `Done{Failed}`; an invalid or expired ephemeral ID, by
contrast, returns the error without writing, leaving the stored session
unchanged in `Created`. -/
theorem C2_failed_get_transitions_to_done_failed (v : Verifier) (now : Int)
    (store : SessionStore) (token : SessionToken)
    (params : VerifierUrlParameters) (ss : SessionState DisclosureData)
    (c : Created) (h1 : store token = some ss) (h2 : ss.data = .Created c) :
    (∀ e, verify_ephemeral_id v.ephemeral now token params = .error e →
       v.process_get_request now store token params = (.error e, store)) ∧
    (verify_ephemeral_id v.ephemeral now token params = .ok () →
     ∀ err, v.inner c = .error err →
       v.process_get_request now store token params =
         (.error err,
          store.write
            { data := .Done
                { session_result := SessionResult.Failed (err.render) }
              token := ss.token
              last_active := now })) := by
  obtain ⟨data, tk, la⟩ := ss
  dsimp only at h2 ⊢
  subst h2
  constructor
  · intro e he
    unfold Verifier.process_get_request
    rw [h1]
    dsimp only [Session.try_from_created]
    rw [he]
  · intro hok err hinner
    unfold Verifier.process_get_request
    rw [h1]
    dsimp only [Session.try_from_created]
    rw [hok]
    dsimp only [Session.process_get_request]
    rw [hinner]
    rfl

/-- C2 witness: with the sample verifier, an expired ephemeral ID leaves
the store untouched, while an inner failure (valid ephemeral ID) writes
`Done{Failed}`. -/
theorem C2_failed_get_transitions_to_done_failed_witness :
    sampleVerifier.process_get_request 100 sampleStoreCreated "tok"
        ⟨.SameDevice, [0], 0⟩ =
      (.error (.ExpiredEphemeralId [0]), sampleStoreCreated) ∧
    sampleVerifier.process_get_request 5 sampleStoreCreated "tok"
        ⟨.SameDevice, generate_ephemeral_id sampleEphCtx "tok" 0, 0⟩ =
      (.error (.EncryptionKey "keygen failed"),
       SessionStore.write sampleStoreCreated
         { data := .Done
             { session_result := SessionResult.Failed
                 ((GetAuthRequestError.EncryptionKey "keygen failed").render) }
           token := "tok"
           last_active := 5 }) :=
  ⟨(C2_failed_get_transitions_to_done_failed sampleVerifier 100 sampleStoreCreated
      "tok" ⟨.SameDevice, [0], 0⟩ ⟨.Created sampleCreated, "tok", 0⟩ sampleCreated
      rfl rfl).1 (.ExpiredEphemeralId [0]) (by decide),
   (C2_failed_get_transitions_to_done_failed sampleVerifier 5 sampleStoreCreated
      "tok" ⟨.SameDevice, generate_ephemeral_id sampleEphCtx "tok" 0, 0⟩
      ⟨.Created sampleCreated, "tok", 0⟩ sampleCreated rfl rfl).2 (by decide)
      (.EncryptionKey "keygen failed") rfl⟩

/-- C3 counterexample: the claim says the outcome for an invalid or expired
ephemeral ID is independent of the session store's contents, but the code
loads and state-checks the session first: with identical (expired)
ephemeral-ID parameters, an empty store answers `UnknownSession` while a
store holding a `Created` session answers `ExpiredEphemeralId`. -/
theorem C3_counterexample_outcome_depends_on_store :
    (sampleVerifier.process_get_request 100 (fun _ => none) "tok"
        ⟨.SameDevice, [0], 0⟩).1 = .error (.Session (.UnknownSession "tok")) ∧
    (sampleVerifier.process_get_request 100 sampleStoreCreated "tok"
        ⟨.SameDevice, [0], 0⟩).1 = .error (.ExpiredEphemeralId [0]) ∧
    (Except.error (.Session (.UnknownSession "tok")) : Except GetAuthRequestError Jwt)
      ≠ .error (.ExpiredEphemeralId [0]) :=
  ⟨rfl, rfl, by decide⟩

/-- C3 (amended): `process_get_request` loads the session and requires it
to be in `Created` before the ephemeral ID is verified; for a `Created`
session an invalid or expired ephemeral ID is rejected without mutating
the session store, but the outcome of such a request is not independent of
the store's contents: an absent session yields `UnknownSession` and a
non-`Created` session yields `UnexpectedState`, in both cases without the
ephemeral ID being consulted. -/
theorem C3_ephemeral_check_after_session_load (v : Verifier) (now : Int)
    (store : SessionStore) (token : SessionToken)
    (params : VerifierUrlParameters) :
    (store token = none →
       v.process_get_request now store token params =
         (.error (.Session (.UnknownSession token)), store)) ∧
    (∀ ss d, store token = some ss → ss.data = .Done d →
       v.process_get_request now store token params =
         (.error (.Session .UnexpectedState), store)) ∧
    (∀ ss w, store token = some ss → ss.data = .WaitingForResponse w →
       v.process_get_request now store token params =
         (.error (.Session .UnexpectedState), store)) ∧
    (∀ ss c e, store token = some ss → ss.data = .Created c →
       verify_ephemeral_id v.ephemeral now token params = .error e →
       v.process_get_request now store token params = (.error e, store)) := by
  refine ⟨?_, ?_, ?_, ?_⟩
  · intro h1
    unfold Verifier.process_get_request
    rw [h1]
  · intro ss d h1 h2
    obtain ⟨data, tk, la⟩ := ss
    dsimp only at h2
    subst h2
    unfold Verifier.process_get_request
    rw [h1]
    rfl
  · intro ss w h1 h2
    obtain ⟨data, tk, la⟩ := ss
    dsimp only at h2
    subst h2
    unfold Verifier.process_get_request
    rw [h1]
    rfl
  · intro ss c e h1 h2 he
    obtain ⟨data, tk, la⟩ := ss
    dsimp only at h2
    subst h2
    unfold Verifier.process_get_request
    rw [h1]
    dsimp only [Session.try_from_created]
    rw [he]

/-- C3 witness: the amended behavior at concrete stores — unknown session,
a terminal session, and a `Created` session with an expired ephemeral ID
(store left unchanged). -/
theorem C3_ephemeral_check_after_session_load_witness :
    sampleVerifier.process_get_request 100 (fun _ => none) "tok"
        ⟨.SameDevice, [0], 0⟩ =
      (.error (.Session (.UnknownSession "tok")), fun _ => none) ∧
    sampleVerifier.process_get_request 100 sampleStoreDoneFailed "tok"
        ⟨.SameDevice, [0], 0⟩ =
      (.error (.Session .UnexpectedState), sampleStoreDoneFailed) ∧
    sampleVerifier.process_get_request 100 sampleStoreCreated "tok"
        ⟨.SameDevice, [0], 0⟩ =
      (.error (.ExpiredEphemeralId [0]), sampleStoreCreated) :=
  ⟨(C3_ephemeral_check_after_session_load sampleVerifier 100 (fun _ => none)
      "tok" ⟨.SameDevice, [0], 0⟩).1 rfl,
   (C3_ephemeral_check_after_session_load sampleVerifier 100 sampleStoreDoneFailed
      "tok" ⟨.SameDevice, [0], 0⟩).2.1 ⟨.Done ⟨.Failed "boom"⟩, "tok", 0⟩
      ⟨.Failed "boom"⟩ rfl rfl,
   (C3_ephemeral_check_after_session_load sampleVerifier 100 sampleStoreCreated
      "tok" ⟨.SameDevice, [0], 0⟩).2.2.2 ⟨.Created sampleCreated, "tok", 0⟩
      sampleCreated (.ExpiredEphemeralId [0]) rfl rfl (by decide)⟩

/-! ### Helper lemmas for the attribute-digest verification claim -/

/-- Splitting the per-namespace attribute loop over an append. -/
theorem verify_attrs_in_namespace_append (mso : MobileSecurityObject)
    (crypto : MdocCrypto) (ns : NameSpace) (l1 l2 : Attributes) :
    mso.verify_attrs_in_namespace crypto ns (l1 ++ l2) =
      match mso.verify_attrs_in_namespace crypto ns l1 with
      | .error e => .error e
      | .ok es1 =>
        match mso.verify_attrs_in_namespace crypto ns l2 with
        | .error e => .error e
        | .ok es2 => .ok (es1 ++ es2) := by
  induction l1 with
  | nil =>
    dsimp only [List.nil_append, MobileSecurityObject.verify_attrs_in_namespace]
    cases h : mso.verify_attrs_in_namespace crypto ns l2 <;> rfl
  | cons item rest ih =>
    simp only [List.cons_append, MobileSecurityObject.verify_attrs_in_namespace]
    cases hd : mso.verify_attr_digest crypto ns item
    · rfl
    · dsimp only
      rw [List.append_eq, ih]
      cases h1 : mso.verify_attrs_in_namespace crypto ns rest
      · rfl
      · cases h2 : mso.verify_attrs_in_namespace crypto ns l2 <;> rfl

/-- Splitting the namespace loop over an append. -/
theorem verify_namespaces_append (mso : MobileSecurityObject)
    (crypto : MdocCrypto) (pre rest : IssuerNameSpaces) :
    ∀ acc, mso.verify_namespaces crypto acc (pre ++ rest) =
      match mso.verify_namespaces crypto acc pre with
      | .error e => .error e
      | .ok acc2 => mso.verify_namespaces crypto acc2 rest := by
  induction pre with
  | nil => intro acc; rfl
  | cons p pre ih =>
    intro acc
    obtain ⟨ns, items⟩ := p
    simp only [List.cons_append, MobileSecurityObject.verify_namespaces]
    cases hv : mso.verify_attrs_in_namespace crypto ns items
    · rfl
    · exact ih _

/-- Lookup distributes over append. -/
theorem indexMapGet_append {α β : Type} [DecidableEq α]
    (l1 l2 : List (α × β)) (k : α) :
    indexMapGet (l1 ++ l2) k =
      match indexMapGet l1 k with
      | some v => some v
      | none => indexMapGet l2 k := by
  induction l1 with
  | nil => rfl
  | cons p rest ih =>
    obtain ⟨k0, v0⟩ := p
    simp only [List.cons_append, indexMapGet]
    by_cases h : k0 = k
    · simp [h]
    · simp [h, ih]

/-- Inserting a fresh key appends it. -/
theorem indexMapInsert_of_get_none {α β : Type} [DecidableEq α]
    (acc : List (α × β)) (k : α) (v : β) (h : indexMapGet acc k = none) :
    indexMapInsert acc k v = acc ++ [(k, v)] := by
  induction acc with
  | nil => rfl
  | cons p rest ih =>
    obtain ⟨k0, v0⟩ := p
    simp only [indexMapGet] at h
    by_cases hk : k0 = k
    · simp [hk] at h
    · simp only [indexMapInsert, if_neg hk, List.cons_append, List.cons.injEq, true_and]
      exact ih (by simpa [hk] using h)

/-- If every attribute of a namespace carries a matching stored digest, the
per-namespace loop succeeds and returns exactly the (name, value) entries. -/
theorem verify_attrs_in_namespace_all_ok (mso : MobileSecurityObject)
    (crypto : MdocCrypto) (ns : NameSpace) :
    ∀ items : Attributes,
    (∀ item ∈ items,
       (indexMapGet mso.value_digests ns).bind
           (fun ds => indexMapGet ds item.digest_id)
         = (crypto.cbor_digest item).toOption ∧
       (crypto.cbor_digest item).toOption ≠ none) →
    mso.verify_attrs_in_namespace crypto ns items =
      .ok (items.map (fun item =>
        { name := item.element_identifier, value := item.element_value })) := by
  intro items
  induction items with
  | nil => intro _; rfl
  | cons item rest ih =>
    intro h
    obtain ⟨heq, hne⟩ := h item (List.mem_cons_self item rest)
    cases hc : crypto.cbor_digest item with
    | error e => rw [hc] at hne; simp [Except.toOption] at hne
    | ok d =>
      rw [hc] at heq
      cases hg : indexMapGet mso.value_digests ns with
      | none => rw [hg] at heq; simp [Except.toOption] at heq
      | some ds =>
        rw [hg] at heq
        simp only [Option.some_bind, Except.toOption] at heq
        simp only [List.map_cons, MobileSecurityObject.verify_attrs_in_namespace,
          MobileSecurityObject.verify_attr_digest, hg, heq, hc, ne_eq,
          not_true_eq_false, if_false, ite_false]
        rw [ih (fun it hit => h it (List.mem_cons_of_mem item hit))]

/-- If every namespace verifies to its entries and namespace keys are
disjoint from the accumulator and each other, the namespace loop appends
the per-namespace entry lists to the accumulator. -/
theorem verify_namespaces_all_ok (mso : MobileSecurityObject)
    (crypto : MdocCrypto) :
    ∀ (nss : IssuerNameSpaces) (acc : List (NameSpace × List Entry)),
    (∀ p ∈ nss, mso.verify_attrs_in_namespace crypto p.1 p.2 =
       .ok (p.2.map (fun item =>
         { name := item.element_identifier, value := item.element_value }))) →
    (∀ p ∈ nss, indexMapGet acc p.1 = none) →
    ((nss.map Prod.fst).Nodup) →
    mso.verify_namespaces crypto acc nss =
      .ok (acc ++ nss.map (fun p => (p.1, p.2.map (fun item =>
        { name := item.element_identifier, value := item.element_value })))) := by
  intro nss
  induction nss with
  | nil => intro acc _ _ _; simp [MobileSecurityObject.verify_namespaces]
  | cons p rest ih =>
    intro acc hok hfresh hnodup
    obtain ⟨ns, items⟩ := p
    simp only [MobileSecurityObject.verify_namespaces]
    rw [hok ⟨ns, items⟩ (List.mem_cons_self _ _)]
    dsimp only
    rw [indexMapInsert_of_get_none _ _ _ (hfresh ⟨ns, items⟩ (List.mem_cons_self _ _))]
    have hrest_fresh : ∀ p ∈ rest,
        indexMapGet (acc ++ [(ns, items.map (fun item =>
          { name := item.element_identifier, value := item.element_value }))]) p.1
          = none := by
      intro q hq
      rw [indexMapGet_append, hfresh q (List.mem_cons_of_mem _ hq)]
      have hne : ns ≠ q.1 := by
        simp only [List.map_cons, List.nodup_cons] at hnodup
        intro hcontra
        exact hnodup.1 (hcontra ▸ List.mem_map_of_mem Prod.fst hq)
      simp [indexMapGet, hne]
    have hrest_nodup : (rest.map Prod.fst).Nodup := by
      simp only [List.map_cons, List.nodup_cons] at hnodup
      exact hnodup.2
    rw [ih _ (fun q hq => hok q (List.mem_cons_of_mem _ hq)) hrest_fresh hrest_nodup]
    simp

/-- C1: attribute digest verification soundness. Each disclosed
attribute's recomputed digest is compared against the MSO's stored digest
at the attribute's declared `digest_id`: an absent namespace gives
`MissingNamespace`, an absent digest ID gives `MissingDigestID`, and a
digest mismatch gives `AttributeVerificationFailed`; a manifest whose
attributes all match verifies and returns exactly the disclosed
(name, value) entries; and altering a single attribute of a verifying
`IssuerSigned` so that its digest differs from the stored digest at its
declared digest ID makes verification fail with
`AttributeVerificationFailed`. -/
theorem C1_attribute_digest_verification_soundness :
    (∀ (crypto : MdocCrypto) (mso : MobileSecurityObject) (ns : NameSpace)
       (item : IssuerSignedItem),
       indexMapGet mso.value_digests ns = none →
       mso.verify_attr_digest crypto ns item =
         .error (.verification (.MissingNamespace ns))) ∧
    (∀ (crypto : MdocCrypto) (mso : MobileSecurityObject) (ns : NameSpace)
       (item : IssuerSignedItem) (digests : List (DigestID × Digest)),
       indexMapGet mso.value_digests ns = some digests →
       indexMapGet digests item.digest_id = none →
       mso.verify_attr_digest crypto ns item =
         .error (.verification (.MissingDigestID item.digest_id))) ∧
    (∀ (crypto : MdocCrypto) (mso : MobileSecurityObject) (ns : NameSpace)
       (item : IssuerSignedItem) (digests : List (DigestID × Digest))
       (stored d : Digest),
       indexMapGet mso.value_digests ns = some digests →
       indexMapGet digests item.digest_id = some stored →
       crypto.cbor_digest item = .ok d →
       stored ≠ d →
       mso.verify_attr_digest crypto ns item =
         .error (.verification .AttributeVerificationFailed)) ∧
    (∀ (crypto : MdocCrypto) (isg : IssuerSigned) (mso : MobileSecurityObject)
       (validity : ValidityRequirement) (time : Int) (nss : IssuerNameSpaces)
       (issuer : List String),
       crypto.authVerify isg.issuer_auth = .ok mso →
       mso.validity_info.verify_is_valid_at time validity = .ok () →
       crypto.signingCertCommonName isg.issuer_auth = .ok issuer →
       isg.name_spaces = some nss →
       (∀ p ∈ nss, ∀ item ∈ p.2,
          (indexMapGet mso.value_digests p.1).bind
              (fun ds => indexMapGet ds item.digest_id)
            = (crypto.cbor_digest item).toOption ∧
          (crypto.cbor_digest item).toOption ≠ none) →
       ((nss.map Prod.fst).Nodup) →
       isg.verify crypto validity time =
         .ok ({ attributes := nss.map (fun p => (p.1, p.2.map (fun item =>
                  { name := item.element_identifier
                    value := item.element_value })))
                issuer := issuer
                validity_info := mso.validity_info }, mso)) ∧
    (∀ (crypto : MdocCrypto) (isg : IssuerSigned) (mso : MobileSecurityObject)
       (validity : ValidityRequirement) (time : Int)
       (pre post : IssuerNameSpaces) (ns : NameSpace)
       (items1 items2 : Attributes) (item item' : IssuerSignedItem)
       (r : DocumentDisclosedAttributes × MobileSecurityObject)
       (digests : List (DigestID × Digest)) (stored d' : Digest),
       crypto.authVerify isg.issuer_auth = .ok mso →
       isg.name_spaces = some (pre ++ (ns, items1 ++ item :: items2) :: post) →
       isg.verify crypto validity time = .ok r →
       item'.digest_id = item.digest_id →
       crypto.cbor_digest item' = .ok d' →
       indexMapGet mso.value_digests ns = some digests →
       indexMapGet digests item.digest_id = some stored →
       stored ≠ d' →
       IssuerSigned.verify
           ⟨some (pre ++ (ns, items1 ++ item' :: items2) :: post), isg.issuer_auth⟩
           crypto validity time =
         .error (.verification .AttributeVerificationFailed)) := by
  refine ⟨?_, ?_, ?_, ?_, ?_⟩
  · intro crypto mso ns item hg
    unfold MobileSecurityObject.verify_attr_digest
    rw [hg]
  · intro crypto mso ns item digests hg hd
    unfold MobileSecurityObject.verify_attr_digest
    rw [hg]
    dsimp only
    rw [hd]
  · intro crypto mso ns item digests stored d hg hd hc hne
    unfold MobileSecurityObject.verify_attr_digest
    rw [hg]
    dsimp only
    rw [hd]
    dsimp only
    rw [hc]
    dsimp only
    rw [if_pos hne]
  · intro crypto isg mso validity time nss issuer hauth hval hcn hnss hall hnodup
    unfold IssuerSigned.verify
    rw [hauth]
    dsimp only
    rw [hval]
    dsimp only
    rw [hnss]
    dsimp only
    rw [verify_namespaces_all_ok mso crypto nss []
          (fun p hp => verify_attrs_in_namespace_all_ok mso crypto p.1 p.2
            (hall p hp))
          (fun p _ => rfl) hnodup]
    dsimp only
    rw [hcn]
    dsimp only
    rw [List.nil_append]
  · intro crypto isg mso validity time pre post ns items1 items2 item item' r
      digests stored d' hauth hnss hok hdid hcb hg hd hne
    -- unpack the successful verification of the original manifest
    unfold IssuerSigned.verify at hok
    rw [hauth] at hok
    dsimp only at hok
    cases hval : mso.validity_info.verify_is_valid_at time validity with
    | error e => rw [hval] at hok; exact absurd hok (by simp)
    | ok u =>
      rw [hval] at hok
      dsimp only at hok
      rw [hnss] at hok
      dsimp only at hok
      cases hns : mso.verify_namespaces crypto []
          (pre ++ (ns, items1 ++ item :: items2) :: post) with
      | error e => rw [hns] at hok; exact absurd hok (by simp)
      | ok attrs =>
        -- the prefix namespaces verify
        rw [verify_namespaces_append] at hns
        cases hpre : mso.verify_namespaces crypto [] pre with
        | error e => rw [hpre] at hns; exact absurd hns (by simp)
        | ok acc1 =>
          rw [hpre] at hns
          dsimp only at hns
          simp only [MobileSecurityObject.verify_namespaces] at hns
          cases hattrs : mso.verify_attrs_in_namespace crypto ns
              (items1 ++ item :: items2) with
          | error e => rw [hattrs] at hns; exact absurd hns (by simp)
          | ok es =>
            -- the attribute prefix of the altered namespace verifies
            rw [verify_attrs_in_namespace_append] at hattrs
            cases hes1 : mso.verify_attrs_in_namespace crypto ns items1 with
            | error e => rw [hes1] at hattrs; exact absurd hattrs (by simp)
            | ok es1 =>
              -- now evaluate verification of the altered manifest
              unfold IssuerSigned.verify
              rw [hauth]
              dsimp only
              rw [hval]
              dsimp only
              rw [verify_namespaces_append, hpre]
              dsimp only
              simp only [MobileSecurityObject.verify_namespaces]
              rw [verify_attrs_in_namespace_append, hes1]
              dsimp only
              simp only [MobileSecurityObject.verify_attrs_in_namespace,
                MobileSecurityObject.verify_attr_digest, hg, hdid, hd, hcb,
                ne_eq, hne, not_false_eq_true, if_true, ite_true]

/-- C1 witness: the sample manifest verifies round-trip to its
(name, value) entry; a missing namespace, a missing digest ID and a
mismatching digest produce the three errors; and replacing the sample
attribute's value by another value fails verification with
`AttributeVerificationFailed`. -/
theorem C1_attribute_digest_verification_soundness_witness :
    MobileSecurityObject.verify_attr_digest sampleMso sampleMdocCrypto
        "unknown_ns" sampleItem =
      .error (.verification (.MissingNamespace "unknown_ns")) ∧
    MobileSecurityObject.verify_attr_digest sampleMso sampleMdocCrypto
        "org.iso.18013.5.1" ⟨9, [7], "x", .text "y"⟩ =
      .error (.verification (.MissingDigestID 9)) ∧
    MobileSecurityObject.verify_attr_digest sampleMso sampleMdocCrypto
        "org.iso.18013.5.1" sampleItemAltered =
      .error (.verification .AttributeVerificationFailed) ∧
    IssuerSigned.verify sampleIssuerSigned sampleMdocCrypto .Valid 5 =
      .ok ({ attributes := [("org.iso.18013.5.1",
               [{ name := "given_name", value := .text "Alice" }])]
             issuer := ["Example Issuer"]
             validity_info := ⟨0, 0, 100⟩ }, sampleMso) ∧
    IssuerSigned.verify
        ⟨some [("org.iso.18013.5.1", [sampleItemAltered])],
         sampleIssuerSigned.issuer_auth⟩ sampleMdocCrypto .Valid 5 =
      .error (.verification .AttributeVerificationFailed) := by
  refine ⟨?_, ?_, ?_, ?_, ?_⟩
  · exact C1_attribute_digest_verification_soundness.1 sampleMdocCrypto sampleMso
      "unknown_ns" sampleItem (by decide)
  · exact C1_attribute_digest_verification_soundness.2.1 sampleMdocCrypto sampleMso
      "org.iso.18013.5.1" ⟨9, [7], "x", .text "y"⟩
      [(0, ((sampleCborDigest sampleItem).toOption.getD []))] (by decide) (by decide)
  · exact C1_attribute_digest_verification_soundness.2.2.1 sampleMdocCrypto
      sampleMso "org.iso.18013.5.1" sampleItemAltered
      [(0, ((sampleCborDigest sampleItem).toOption.getD []))]
      ((sampleCborDigest sampleItem).toOption.getD [])
      ((sampleCborDigest sampleItemAltered).toOption.getD [])
      (by decide) (by decide) (by decide) (by decide)
  · exact C1_attribute_digest_verification_soundness.2.2.2.1 sampleMdocCrypto
      sampleIssuerSigned sampleMso .Valid 5
      [("org.iso.18013.5.1", [sampleItem])] ["Example Issuer"]
      (by decide) (by decide) (by decide) rfl (by decide) (by decide)
  · exact C1_attribute_digest_verification_soundness.2.2.2.2 sampleMdocCrypto
      sampleIssuerSigned sampleMso .Valid 5 [] [] "org.iso.18013.5.1" [] []
      sampleItem sampleItemAltered
      ({ attributes := [("org.iso.18013.5.1",
           [{ name := "given_name", value := .text "Alice" }])]
         issuer := ["Example Issuer"]
         validity_info := ⟨0, 0, 100⟩ }, sampleMso)
      [(0, ((sampleCborDigest sampleItem).toOption.getD []))]
      ((sampleCborDigest sampleItem).toOption.getD [])
      ((sampleCborDigest sampleItemAltered).toOption.getD [])
      (by decide) rfl (by decide) (by decide) (by decide) (by decide) (by decide)
      (by decide)

end NlWallet
